import Mathlib

/-!
Verification of the laundry-service booking frontend.

The development embeds the client-side booking workflow of the repository:
the hard-coded service catalog, the pricing reduction `calculateTotalPrice`,
the quantity editor `updateItemQuantity`, the category toggle
`handleToggleService`, the address-step gating, the payment submission
`handlePayment`, the shared REST response handler `handleResponse`, the
invoice-page totals derivation, and the step machine of the multi-step form.

JavaScript objects keyed by strings are embedded as association lists in
object insertion order; JavaScript numbers are embedded as exact rationals
(the pricing code is a pure reduction with no precision guarantees claimed
by the repository); `Number.prototype.toFixed 2` display is embedded as
rounding half-up at two decimal places over the exact rationals.
-/

namespace LaundryService

/-- One entry of the hard-coded client catalog `serviceItems`:
item id, display name, unit price in rupees. -/
structure CatalogItem where
  id : String
  name : String
  price : ℚ
deriving DecidableEq

/-- The `regular` category of the hard-coded catalog. -/
def regularItems : List CatalogItem :=
  [⟨"tshirt", "T-Shirt", 25⟩,
   ⟨"shirt", "Shirt", 35⟩,
   ⟨"jeans", "Jeans", 45⟩,
   ⟨"lowers", "Lowers/Pants", 40⟩,
   ⟨"underwear", "Underwear", 15⟩,
   ⟨"socks", "Socks", 10⟩]

/-- The `bag` category of the hard-coded catalog. -/
def bagItems : List CatalogItem :=
  [⟨"small_bag", "Small Bag (up to 5kg)", 150⟩,
   ⟨"medium_bag", "Medium Bag (up to 8kg)", 200⟩,
   ⟨"large_bag", "Large Bag (up to 10kg)", 249.9⟩]

/-- The `shoes` category of the hard-coded catalog. -/
def shoesItems : List CatalogItem :=
  [⟨"sneakers", "Sneakers", 80⟩,
   ⟨"formal_shoes", "Formal Shoes", 90⟩,
   ⟨"boots", "Boots", 100⟩,
   ⟨"sandals", "Sandals", 60⟩]

/-- The `blanket` category of the hard-coded catalog. -/
def blanketItems : List CatalogItem :=
  [⟨"single_blanket", "Single Blanket", 120⟩,
   ⟨"double_blanket", "Double Blanket", 180⟩,
   ⟨"comforter", "Comforter", 199.9⟩,
   ⟨"duvet", "Duvet", 220⟩]

/-- The `dry_cleaning` category of the hard-coded catalog. -/
def dryCleaningItems : List CatalogItem :=
  [⟨"suit", "Suit (2-piece)", 200⟩,
   ⟨"dress", "Dress", 150⟩,
   ⟨"coat", "Coat/Jacket", 180⟩,
   ⟨"saree", "Saree", 120⟩,
   ⟨"curtains", "Curtains", 100⟩]

/-- The `ironing` category of the hard-coded catalog. -/
def ironingItems : List CatalogItem :=
  [⟨"tshirt_iron", "T-Shirt", 15⟩,
   ⟨"shirt_iron", "Shirt", 20⟩,
   ⟨"jeans_iron", "Jeans", 25⟩,
   ⟨"dress_iron", "Dress", 30⟩,
   ⟨"saree_iron", "Saree", 40⟩]

/-- The hard-coded catalog lookup `serviceItems[serviceTypeId] || []`:
category id to its priced items, empty for an unknown category id. -/
def serviceItems : String → List CatalogItem
  | "regular" => regularItems
  | "bag" => bagItems
  | "shoes" => shoesItems
  | "blanket" => blanketItems
  | "dry_cleaning" => dryCleaningItems
  | "ironing" => ironingItems
  | _ => []

/-- An item-id-to-quantity object, in insertion order. -/
abbrev ItemMap := List (String × ℕ)

/-- The nested `service_items` object: category id to item quantities. -/
abbrev ServiceItems := List (String × ItemMap)

/-- JavaScript property write `obj[k] = v` on a string-keyed object:
an existing key keeps its position and receives the new value, a new key
is appended in insertion order. -/
def setKey {α : Type} : List (String × α) → String → α → List (String × α)
  | [], k, v => [(k, v)]
  | a :: l, k, v => if a.1 == k then (k, v) :: l else a :: setKey l k v

/-- JavaScript property removal `delete obj[k]` on a string-keyed object. -/
def eraseKey {α : Type} (l : List (String × α)) (k : String) :
    List (String × α) :=
  l.filter (fun p => !(p.1 == k))

/-- The item map of one category, `formData.service_items[serviceTypeId]`,
defaulting to the empty object when the key is absent. -/
def categoryItems (si : ServiceItems) (stId : String) : ItemMap :=
  match si.find? (fun p => p.1 == stId) with
  | some e => e.2
  | none => []

/-- The read `formData.service_items[serviceTypeId]?.[itemId] || 0`. -/
def lookupQty (si : ServiceItems) (stId itemId : String) : ℕ :=
  match (categoryItems si stId).find? (fun p => p.1 == itemId) with
  | some p => p.2
  | none => 0

/-- One step of the accumulation inside `calculateTotalPrice`:
`if (item && quantity > 0) total += item.price * quantity`, where `item` is
the catalog entry found by id in the category. -/
def addLine (stId : String) (t : ℚ) (p : String × ℕ) : ℚ :=
  match (serviceItems stId).find? (fun i => i.id == p.1) with
  | some item => if 0 < p.2 then t + item.price * (p.2 : ℚ) else t
  | none => t

/-- The source function `calculateTotalPrice`: a double `forEach` over the
`service_items` entries accumulating `item.price * quantity` for catalog
items with positive quantity. -/
def calculateTotalPrice (si : ServiceItems) : ℚ :=
  si.foldl (fun total e => e.2.foldl (addLine e.1) total) 0

/-- The price of one `service_items` line as the spec states it: unit price
times quantity, counting only items present in the catalog of the category
with quantity strictly positive. -/
def lineAmount (stId : String) (p : String × ℕ) : ℚ :=
  match (serviceItems stId).find? (fun i => i.id == p.1) with
  | some item => if 0 < p.2 then item.price * (p.2 : ℚ) else 0
  | none => 0

/-- The pricing formula as the spec states it: the sum over selected
categories of the sum over items of the line amounts. -/
def specTotal (si : ServiceItems) : ℚ :=
  (si.map (fun e => (e.2.map (lineAmount e.1)).sum)).sum

/-- The clamped quantity computed by `updateItemQuantity`:
`Math.max(0, currentQuantity + change)`. -/
def newQty (si : ServiceItems) (stId itemId : String) (change : ℤ) : ℕ :=
  (max 0 ((lookupQty si stId itemId : ℤ) + change)).toNat

/-- The source function `updateItemQuantity`: clamp the new quantity at
zero; a zero quantity deletes the item entry, and a category emptied of
items is deleted; a positive quantity is stored. -/
def updateItemQuantity (si : ServiceItems) (stId itemId : String)
    (change : ℤ) : ServiceItems :=
  if newQty si stId itemId change = 0 then
    if eraseKey (categoryItems si stId) itemId = [] then
      eraseKey si stId
    else
      setKey si stId (eraseKey (categoryItems si stId) itemId)
  else
    setKey si stId (setKey (categoryItems si stId) itemId
      (newQty si stId itemId change))

/-- The part of the booking form state that `handleToggleService` touches:
the selected category ids and the nested item quantities. -/
structure SelectionState where
  service_type_ids : List String
  service_items : ServiceItems
deriving DecidableEq

/-- The source handler `handleToggleService`: toggling a selected category
off filters its id out of `service_type_ids` and deletes its entry from
`service_items`; toggling an unselected category on appends its id and
leaves the item quantities untouched. -/
def handleToggleService (st : SelectionState) (typeId : String) :
    SelectionState :=
  if st.service_type_ids.contains typeId then
    { service_type_ids := st.service_type_ids.filter (fun id => !(id == typeId)),
      service_items := eraseKey st.service_items typeId }
  else
    { st with service_type_ids := st.service_type_ids ++ [typeId] }

/-- The embedded address value object of the booking form. -/
structure Address where
  street : String
  city : String
  state : String
  zip_code : String
  instructions : String
deriving DecidableEq

/-- JavaScript falsiness of a string: only the empty string is falsy. -/
def jsStrFalsy (s : String) : Bool := s == ""

/-- The `disabled` expression of the Continue button on the address step:
`!street || !city || !state || !zip_code`. -/
def addressContinueDisabled (a : Address) : Bool :=
  jsStrFalsy a.street || jsStrFalsy a.city || jsStrFalsy a.state ||
    jsStrFalsy a.zip_code

/-- The body submitted to `api.createPayment` by `handlePayment`. -/
structure PaymentRequest where
  pickup_request_id : String
  payment_method_id : String
  amount : ℚ
deriving DecidableEq

/-- The source handler `handlePayment`: it returns without submitting when
`totalPrice === 0 || !pickupRequestId`, and otherwise submits the payment
with `amount: totalPrice * 1.08`. -/
def handlePayment (si : ServiceItems) (pickupRequestId paymentMethodId : String) :
    Option PaymentRequest :=
  if calculateTotalPrice si = 0 ∨ pickupRequestId = "" then
    none
  else
    some { pickup_request_id := pickupRequestId,
           payment_method_id := paymentMethodId,
           amount := calculateTotalPrice si * 1.08 }

/-- Rounding half-up at two decimal places over exact rationals: the
embedding of the display conversion `x.toFixed(2)`. -/
def roundTo2 (x : ℚ) : ℚ := ((⌊x * 100 + 1 / 2⌋ : ℤ) : ℚ) / 100

/-- The subtotal figure shown on the payment step: `totalPrice.toFixed(2)`. -/
def paymentSubtotalShown (si : ServiceItems) : ℚ :=
  roundTo2 (calculateTotalPrice si)

/-- The tax figure shown on the payment step:
`(totalPrice * 0.08).toFixed(2)`. -/
def paymentTaxShown (si : ServiceItems) : ℚ :=
  roundTo2 (calculateTotalPrice si * 0.08)

/-- The grand-total figure shown on the payment step:
`(totalPrice * 1.08).toFixed(2)`. -/
def paymentGrandTotalShown (si : ServiceItems) : ℚ :=
  roundTo2 (calculateTotalPrice si * 1.08)

/-- The invoice-page subtotal derivation: `invoice.amount / 1.08`. -/
def invoiceSubtotal (amount : ℚ) : ℚ := amount / 1.08

/-- The invoice-page tax derivation: `subtotal * 0.08`. -/
def invoiceTax (amount : ℚ) : ℚ := invoiceSubtotal amount * 0.08

/-- The invoice-page total: `invoice.amount` itself. -/
def invoiceTotal (amount : ℚ) : ℚ := amount

/-- The fields of a parsed response body that `handleResponse` reads on the
error path, next to the abstract payload of the document. A field holds
`none` when it is absent from the document. -/
structure JsonBody where
  detail : Option String
  message : Option String
  payload : String
deriving DecidableEq

/-- The empty object produced by `response.json().catch(() => ({}))`. -/
def jsEmptyBody : JsonBody :=
  { detail := none, message := none, payload := "" }

/-- A REST response as `handleResponse` sees it: the `ok` flag and the
result of `response.json()`, with `none` when the body does not parse. -/
structure HttpResponse where
  ok : Bool
  json : Option JsonBody
deriving DecidableEq

/-- The observable outcome of `handleResponse`: the parsed body, a thrown
`Error` with its single message string, or the propagated rejection of
`response.json()` on the 2xx path. -/
inductive HandlerOutcome where
  | ok (body : JsonBody)
  | thrown (msg : String)
  | parseFailedOnOk
deriving DecidableEq

/-- JavaScript truthiness of an optional string field: present and
non-empty. -/
def jsTruthyField : Option String → Bool
  | some s => !(s == "")
  | none => false

/-- The shared response handler of `lib/api.ts`: a 2xx response yields the
parsed body; otherwise the parsed error body (the empty object when parsing
fails) selects the thrown message by
`error.detail || error.message || 'An error occurred'`. -/
def handleResponse (r : HttpResponse) : HandlerOutcome :=
  if r.ok then
    match r.json with
    | some b => .ok b
    | none => .parseFailedOnOk
  else
    let error := r.json.getD jsEmptyBody
    .thrown
      (if jsTruthyField error.detail then error.detail.getD ""
       else if jsTruthyField error.message then error.message.getD ""
       else "An error occurred")

/-- The error message as the spec words it: the detail field when present
and non-empty, else the message field when present and non-empty, else the
generic fallback. -/
def specErrorMessage (b : JsonBody) : String :=
  match b.detail with
  | some d =>
    if d = "" then
      match b.message with
      | some m => if m = "" then "An error occurred" else m
      | none => "An error occurred"
    else d
  | none =>
    match b.message with
    | some m => if m = "" then "An error occurred" else m
    | none => "An error occurred"

/-- The observable state of the multi-step form: `currentStep` (1 address,
2 pickup time, 3 service selection, 5 payment, 6 confirmation — the source
never uses 4), the stored `pickupRequestId`, and whether a
`api.createPayment` call has succeeded. -/
structure MachineState where
  currentStep : ℕ
  pickupRequestId : String
  paymentDone : Bool
deriving DecidableEq

/-- The events that move the form: the Continue and Back buttons, and the
resolution of the two server calls made by `handleCreatePickupRequest`
and `handlePayment`. -/
inductive BookingEvent where
  | continueStep
  | back
  | createPickupOk (id : String)
  | createPickupFail
  | paymentOk
  | paymentFail
deriving DecidableEq

/-- The initial form state: `useState(1)` for the step and `useState('')`
for the pickup request id. -/
def initialState : MachineState :=
  { currentStep := 1, pickupRequestId := "", paymentDone := false }

/-- The step transitions of the form, gated by where each handler is
reachable in the rendered markup: `handleContinue` on steps 1 and 2,
`handleBack` on steps 2 and 3, `handleCreatePickupRequest` on step 3
(success stores the response id and jumps to step 5, failure stays), and
`handlePayment` on step 5 (guarded by a non-empty `pickupRequestId`;
success jumps to step 6, failure stays). `none` means the event cannot
fire in the given state. -/
def stepFn (s : MachineState) : BookingEvent → Option MachineState
  | .continueStep =>
    if s.currentStep = 1 ∨ s.currentStep = 2 then
      some { s with currentStep := s.currentStep + 1 }
    else none
  | .back =>
    if s.currentStep = 2 ∨ s.currentStep = 3 then
      some { s with currentStep := s.currentStep - 1 }
    else none
  | .createPickupOk id =>
    if s.currentStep = 3 then
      some { s with currentStep := 5, pickupRequestId := id }
    else none
  | .createPickupFail =>
    if s.currentStep = 3 then some s else none
  | .paymentOk =>
    if s.currentStep = 5 ∧ s.pickupRequestId ≠ "" then
      some { s with currentStep := 6, paymentDone := true }
    else none
  | .paymentFail =>
    if s.currentStep = 5 then some s else none

/-- Environmental assumption on server responses: a successfully created
pickup request carries a non-empty id. -/
def serverOk : BookingEvent → Prop
  | .createPickupOk id => id ≠ ""
  | _ => True

/-- The states the form can reach from its initial state through the
transitions, under well-formed server responses. -/
inductive Reachable : MachineState → Prop where
  | init : Reachable initialState
  | next {s e t} : Reachable s → serverOk e → stepFn s e = some t → Reachable t

/-- The booking-state invariant of the claims: every stored quantity is
strictly positive and every category key present holds a non-empty item
map. -/
def GoodState (si : ServiceItems) : Prop :=
  ∀ e ∈ si, e.2 ≠ [] ∧ ∀ p ∈ e.2, 0 < p.2

instance (si : ServiceItems) : Decidable (GoodState si) :=
  inferInstanceAs (Decidable (∀ e ∈ si, e.2 ≠ [] ∧ ∀ p ∈ e.2, 0 < p.2))

/-- The selection of the end-to-end example: two T-Shirts in the regular
category and one Small Bag in the bag category. -/
def exampleSelection : ServiceItems :=
  [("regular", [("tshirt", 2)]), ("bag", [("small_bag", 1)])]

/-- A selection holding one Large Bag, the catalog item priced 249.9. -/
def bagOnlySelection : ServiceItems :=
  [("bag", [("large_bag", 1)])]

/-- An error response whose parsed body carries an empty detail field next
to a non-empty message field. -/
def emptyDetailResponse : HttpResponse :=
  { ok := false,
    json := some { detail := some "", message := some "upstream failure",
                   payload := "" } }


/-! ## Association-list lemmas for the JavaScript object operations -/

theorem find_eraseKey_self {α : Type} (l : List (String × α)) (k : String) :
    (eraseKey l k).find? (fun p => p.1 == k) = none := by
  induction l with
  | nil => rfl
  | cons a l ih =>
    cases hak : (a.1 == k) with
    | true => simp [eraseKey, List.filter_cons, hak, ih]
    | false => simp [eraseKey, List.filter_cons, hak, List.find?_cons, ih]

theorem find_eraseKey_ne {α : Type} (l : List (String × α)) (k other : String)
    (h : other ≠ k) :
    (eraseKey l k).find? (fun p => p.1 == other) =
      l.find? (fun p => p.1 == other) := by
  induction l with
  | nil => rfl
  | cons a l ih =>
    cases hak : (a.1 == k) with
    | true =>
      have hao : (a.1 == other) = false := by
        have hk := eq_of_beq hak
        exact beq_eq_false_iff_ne.mpr (by rw [hk]; exact fun hh => h hh.symm)
      simpa [eraseKey, List.filter_cons, hak, List.find?_cons, hao] using ih
    | false =>
      cases hao : (a.1 == other) with
      | true => simp [eraseKey, List.filter_cons, hak, List.find?_cons, hao]
      | false => simpa [eraseKey, List.filter_cons, hak, List.find?_cons, hao] using ih

theorem find_setKey_self {α : Type} (l : List (String × α)) (k : String) (v : α) :
    (setKey l k v).find? (fun p => p.1 == k) = some (k, v) := by
  induction l with
  | nil => simp [setKey, List.find?_cons]
  | cons a l ih =>
    cases hak : (a.1 == k) with
    | true => simp [setKey, hak, List.find?_cons]
    | false => simpa [setKey, hak, List.find?_cons] using ih

theorem find_setKey_ne {α : Type} (l : List (String × α)) (k other : String) (v : α)
    (h : other ≠ k) :
    (setKey l k v).find? (fun p => p.1 == other) =
      l.find? (fun p => p.1 == other) := by
  have hko : (k == other) = false := beq_eq_false_iff_ne.mpr (fun hh => h hh.symm)
  induction l with
  | nil => simp [setKey, List.find?_cons, hko]
  | cons a l ih =>
    cases hak : (a.1 == k) with
    | true =>
      have hao : (a.1 == other) = false := by
        have hk := eq_of_beq hak
        exact beq_eq_false_iff_ne.mpr (by rw [hk]; exact fun hh => h hh.symm)
      simp [setKey, hak, List.find?_cons, hko, hao]
    | false =>
      cases hao : (a.1 == other) with
      | true => simp [setKey, hak, List.find?_cons, hao]
      | false => simpa [setKey, hak, List.find?_cons, hao] using ih

theorem mem_setKey {α : Type} {l : List (String × α)} {k : String} {v : α}
    {e : String × α} (h : e ∈ setKey l k v) : e ∈ l ∨ e = (k, v) := by
  induction l with
  | nil => simpa [setKey] using h
  | cons a l ih =>
    cases hak : (a.1 == k) with
    | true =>
      rw [setKey, if_pos hak] at h
      rcases List.mem_cons.mp h with h1 | h1
      · exact Or.inr h1
      · exact Or.inl (List.mem_cons_of_mem _ h1)
    | false =>
      rw [setKey, if_neg (by simp [hak])] at h
      rcases List.mem_cons.mp h with h1 | h1
      · exact Or.inl (h1 ▸ List.mem_cons_self a l)
      · rcases ih h1 with h2 | h2
        · exact Or.inl (List.mem_cons_of_mem _ h2)
        · exact Or.inr h2

theorem setKey_ne_nil {α : Type} (l : List (String × α)) (k : String) (v : α) :
    setKey l k v ≠ [] := by
  cases l with
  | nil => simp [setKey]
  | cons a l =>
    rw [setKey]
    split <;> simp

theorem mem_eraseKey {α : Type} {l : List (String × α)} {k : String}
    {e : String × α} (h : e ∈ eraseKey l k) : e ∈ l :=
  List.mem_of_mem_filter h

theorem categoryItems_setKey_self (si : ServiceItems) (stId : String) (m : ItemMap) :
    categoryItems (setKey si stId m) stId = m := by
  rw [categoryItems, find_setKey_self]

theorem categoryItems_eraseKey_self (si : ServiceItems) (stId : String) :
    categoryItems (eraseKey si stId) stId = [] := by
  rw [categoryItems, find_eraseKey_self]

theorem categoryItems_eraseKey_ne (si : ServiceItems) (stId other : String)
    (h : other ≠ stId) :
    categoryItems (eraseKey si stId) other = categoryItems si other := by
  rw [categoryItems, find_eraseKey_ne _ _ _ h, categoryItems]

/-! ## Behaviour of the quantity editor -/

theorem lookupQty_updateItemQuantity (si : ServiceItems) (stId itemId : String)
    (change : ℤ) :
    lookupQty (updateItemQuantity si stId itemId change) stId itemId =
      newQty si stId itemId change := by
  rw [updateItemQuantity]
  by_cases h0 : newQty si stId itemId change = 0
  · rw [if_pos h0, h0]
    by_cases hrem : eraseKey (categoryItems si stId) itemId = []
    · rw [if_pos hrem, lookupQty, categoryItems_eraseKey_self]
      rfl
    · rw [if_neg hrem, lookupQty, categoryItems_setKey_self, find_eraseKey_self]
  · rw [if_neg h0, lookupQty, categoryItems_setKey_self, find_setKey_self]

theorem newQty_cast (si : ServiceItems) (stId itemId : String) (change : ℤ) :
    (newQty si stId itemId change : ℤ) =
      max 0 ((lookupQty si stId itemId : ℤ) + change) := by
  rw [newQty, Int.toNat_of_nonneg (le_max_left 0 _)]

/-! ## Preservation of the selection-state invariant -/

theorem goodState_categoryItems {si : ServiceItems} (h : GoodState si)
    (stId : String) : ∀ p ∈ categoryItems si stId, 0 < p.2 := by
  rw [categoryItems]
  cases hf : si.find? (fun p => p.1 == stId) with
  | none => simp
  | some e =>
    intro p hp
    exact (h e (List.mem_of_find?_eq_some hf)).2 p hp

theorem goodState_updateItemQuantity {si : ServiceItems} (h : GoodState si)
    (stId itemId : String) (change : ℤ) :
    GoodState (updateItemQuantity si stId itemId change) := by
  rw [updateItemQuantity]
  by_cases h0 : newQty si stId itemId change = 0
  · rw [if_pos h0]
    by_cases hrem : eraseKey (categoryItems si stId) itemId = []
    · rw [if_pos hrem]
      exact fun e he => h e (mem_eraseKey he)
    · rw [if_neg hrem]
      intro e he
      rcases mem_setKey he with h1 | h1
      · exact h e h1
      · subst h1
        refine ⟨hrem, fun p hp => goodState_categoryItems h stId p (mem_eraseKey hp)⟩
  · rw [if_neg h0]
    intro e he
    rcases mem_setKey he with h1 | h1
    · exact h e h1
    · subst h1
      refine ⟨setKey_ne_nil _ _ _, ?_⟩
      intro p hp
      rcases mem_setKey hp with h2 | h2
      · exact goodState_categoryItems h stId p h2
      · subst h2
        exact Nat.pos_of_ne_zero h0

theorem goodState_handleToggleService {st : SelectionState}
    (h : GoodState st.service_items) (typeId : String) :
    GoodState (handleToggleService st typeId).service_items := by
  rw [handleToggleService]
  by_cases hc : st.service_type_ids.contains typeId
  · rw [if_pos hc]
    exact fun e he => h e (mem_eraseKey he)
  · rw [if_neg hc]
    exact h

/-! ## Pricing: the accumulation equals the sum formula -/

theorem addLine_eq (stId : String) (t : ℚ) (p : String × ℕ) :
    addLine stId t p = t + lineAmount stId p := by
  rw [addLine, lineAmount]
  cases (serviceItems stId).find? (fun i => i.id == p.1) with
  | none => simp
  | some item => by_cases hq : 0 < p.2 <;> simp [hq]

theorem foldl_addLine (stId : String) (items : ItemMap) (t : ℚ) :
    items.foldl (addLine stId) t = t + (items.map (lineAmount stId)).sum := by
  induction items generalizing t with
  | nil => simp
  | cons p items ih =>
    rw [List.foldl_cons, ih, addLine_eq, List.map_cons, List.sum_cons]
    ring

theorem foldl_categories (si : ServiceItems) (t : ℚ) :
    si.foldl (fun total e => e.2.foldl (addLine e.1) total) t =
      t + (si.map (fun e => (e.2.map (lineAmount e.1)).sum)).sum := by
  induction si generalizing t with
  | nil => simp
  | cons e si ih =>
    rw [List.foldl_cons, ih, foldl_addLine, List.map_cons, List.sum_cons]
    ring

theorem calculateTotalPrice_eq_specTotal (si : ServiceItems) :
    calculateTotalPrice si = specTotal si := by
  rw [calculateTotalPrice, specTotal, foldl_categories, zero_add]

theorem calculateTotalPrice_exampleSelection :
    calculateTotalPrice exampleSelection = 200 := by
  simp [calculateTotalPrice, exampleSelection, addLine, serviceItems, regularItems,
        bagItems, List.find?]
  norm_num

theorem calculateTotalPrice_bagOnly :
    calculateTotalPrice bagOnlySelection = 249.9 := by
  simp [calculateTotalPrice, bagOnlySelection, addLine, serviceItems, bagItems, List.find?]

theorem handlePayment_exampleSelection (pickupRequestId paymentMethodId : String)
    (h : pickupRequestId ≠ "") :
    handlePayment exampleSelection pickupRequestId paymentMethodId =
      some { pickup_request_id := pickupRequestId,
             payment_method_id := paymentMethodId, amount := 216 } := by
  have hne : ¬(calculateTotalPrice exampleSelection = 0 ∨ pickupRequestId = "") := by
    rw [calculateTotalPrice_exampleSelection]
    push_neg
    exact ⟨by norm_num, h⟩
  rw [handlePayment, if_neg hne, calculateTotalPrice_exampleSelection]
  norm_num

/-- C1: for every booking state, a payment actually submitted by
`handlePayment` carries the amount `total × 1.08`, where the total is the
sum over selected categories and items of unit price times quantity,
counting only items present in the catalog of the category with positive
quantity. -/
theorem payment_amount_is_taxed_total (si : ServiceItems)
    (pickupRequestId paymentMethodId : String) (p : PaymentRequest)
    (h : handlePayment si pickupRequestId paymentMethodId = some p) :
    p.amount = specTotal si * 1.08 := by
  rw [handlePayment] at h
  by_cases hc : calculateTotalPrice si = 0 ∨ pickupRequestId = ""
  · rw [if_pos hc] at h
    exact Option.noConfusion h
  · rw [if_neg hc] at h
    obtain rfl := (Option.some.inj h).symm
    show calculateTotalPrice si * 1.08 = specTotal si * 1.08
    rw [calculateTotalPrice_eq_specTotal]

theorem payment_amount_is_taxed_total_witness :
    ({ pickup_request_id := "pr_1", payment_method_id := "pm_1", amount := 216 } :
      PaymentRequest).amount = specTotal exampleSelection * 1.08 :=
  payment_amount_is_taxed_total exampleSelection "pr_1" "pm_1" _
    (handlePayment_exampleSelection "pr_1" "pm_1" (by decide))

/-- C2 (amended): the computed total is the sum of price times quantity
over the selected items, the tax shown on the payment step is the total
times 0.08 rounded to two decimal places, and the grand total shown is the
total times 1.08 rounded to two decimal places. -/
theorem pricing_and_display_formulas (si : ServiceItems) :
    calculateTotalPrice si = specTotal si ∧
    paymentTaxShown si = roundTo2 (specTotal si * 0.08) ∧
    paymentGrandTotalShown si = roundTo2 (specTotal si * 1.08) :=
  ⟨calculateTotalPrice_eq_specTotal si,
   by rw [paymentTaxShown, calculateTotalPrice_eq_specTotal],
   by rw [paymentGrandTotalShown, calculateTotalPrice_eq_specTotal]⟩

/-- C2 counterexample: with one Large Bag selected the total is 249.9,
the exact grand total 249.9 × 1.08 = 269.892 has three decimal places,
and the payment step shows 269.89, so the grand total shown is not equal
to total × 1.08. -/
theorem display_rounding_counterexample :
    calculateTotalPrice bagOnlySelection = 249.9 ∧
    calculateTotalPrice bagOnlySelection * 1.08 = 269.892 ∧
    paymentGrandTotalShown bagOnlySelection = 269.89 ∧
    paymentGrandTotalShown bagOnlySelection ≠
      calculateTotalPrice bagOnlySelection * 1.08 := by
  have h2 : paymentGrandTotalShown bagOnlySelection = 269.89 := by
    rw [paymentGrandTotalShown, calculateTotalPrice_bagOnly, roundTo2]
    norm_num
  refine ⟨calculateTotalPrice_bagOnly, ?_, h2, ?_⟩
  · rw [calculateTotalPrice_bagOnly]; norm_num
  · rw [h2, calculateTotalPrice_bagOnly]; norm_num

/-- C3: for the selection of two T-Shirts at 25 and one Small Bag at 150,
the subtotal is 200, the tax is 16, and the submitted payment amount is
216. -/
theorem example_order_totals :
    calculateTotalPrice exampleSelection = 200 ∧
    calculateTotalPrice exampleSelection * 0.08 = 16 ∧
    paymentTaxShown exampleSelection = 16 ∧
    (∀ pickupRequestId paymentMethodId : String, pickupRequestId ≠ "" →
      handlePayment exampleSelection pickupRequestId paymentMethodId =
        some { pickup_request_id := pickupRequestId,
               payment_method_id := paymentMethodId, amount := 216 }) := by
  refine ⟨calculateTotalPrice_exampleSelection, ?_, ?_, handlePayment_exampleSelection⟩
  · rw [calculateTotalPrice_exampleSelection]; norm_num
  · rw [paymentTaxShown, calculateTotalPrice_exampleSelection, roundTo2]; norm_num

theorem example_order_totals_witness :
    handlePayment exampleSelection "pr_1" "pm_cash" =
      some { pickup_request_id := "pr_1", payment_method_id := "pm_cash",
             amount := 216 } :=
  example_order_totals.2.2.2 "pr_1" "pm_cash" (by decide)

/-- C4: updating a quantity with change `c` stores `max 0 (q + c)`; in
particular decrementing a zero quantity leaves it at zero. -/
theorem quantity_update_clamps (si : ServiceItems) (stId itemId : String) :
    (∀ change : ℤ,
      (lookupQty (updateItemQuantity si stId itemId change) stId itemId : ℤ) =
        max 0 ((lookupQty si stId itemId : ℤ) + change)) ∧
    (lookupQty si stId itemId = 0 →
      lookupQty (updateItemQuantity si stId itemId (-1)) stId itemId = 0) := by
  constructor
  · intro change
    rw [lookupQty_updateItemQuantity, newQty_cast]
  · intro h0
    rw [lookupQty_updateItemQuantity, newQty, h0]
    decide

theorem quantity_update_clamps_witness :
    lookupQty ([] : ServiceItems) "regular" "tshirt" = 0 ∧
    lookupQty (updateItemQuantity [] "regular" "tshirt" (-1)) "regular" "tshirt" = 0 :=
  ⟨rfl, (quantity_update_clamps [] "regular" "tshirt").2 rfl⟩

/-- C5: toggling a selected category off removes its id from
`service_type_ids`, clears all its item quantities, and leaves the item
quantities of every other category unchanged. -/
theorem toggle_off_clears_category (st : SelectionState) (typeId : String)
    (h : typeId ∈ st.service_type_ids) :
    typeId ∉ (handleToggleService st typeId).service_type_ids ∧
    categoryItems (handleToggleService st typeId).service_items typeId = [] ∧
    ∀ other : String, other ≠ typeId →
      categoryItems (handleToggleService st typeId).service_items other =
        categoryItems st.service_items other := by
  have hc : st.service_type_ids.contains typeId = true := by simpa using h
  rw [handleToggleService, if_pos hc]
  refine ⟨?_, categoryItems_eraseKey_self _ _,
    fun other hne => categoryItems_eraseKey_ne _ _ _ hne⟩
  simp [List.mem_filter]

theorem toggle_off_clears_category_witness :
    "regular" ∈ (⟨["regular"], [("regular", [("tshirt", 2)])]⟩ :
      SelectionState).service_type_ids ∧
    categoryItems (handleToggleService
      ⟨["regular"], [("regular", [("tshirt", 2)])]⟩ "regular").service_items
      "regular" = [] :=
  ⟨by simp, (toggle_off_clears_category _ "regular" (by simp)).2.1⟩

/-- C6: the Continue control of the address step is disabled exactly when
one of street, city, state, zip is the empty string, and enabled exactly
when all four are non-empty. -/
theorem address_continue_gate (a : Address) :
    (addressContinueDisabled a = true ↔
      a.street = "" ∨ a.city = "" ∨ a.state = "" ∨ a.zip_code = "") ∧
    (addressContinueDisabled a = false ↔
      a.street ≠ "" ∧ a.city ≠ "" ∧ a.state ≠ "" ∧ a.zip_code ≠ "") := by
  constructor
  · simp [addressContinueDisabled, jsStrFalsy]
    tauto
  · simp [addressContinueDisabled, jsStrFalsy]
    tauto

theorem address_continue_gate_witness :
    addressContinueDisabled
      { street := "", city := "c", state := "s", zip_code := "z",
        instructions := "" } = true :=
  (address_continue_gate _).1.mpr (Or.inl rfl)

/-- C9: both selection operations preserve the invariant that every stored
quantity is positive and every stored category holds a non-empty item
map. -/
theorem selection_invariant_preserved :
    (∀ (si : ServiceItems) (stId itemId : String) (change : ℤ),
      GoodState si → GoodState (updateItemQuantity si stId itemId change)) ∧
    (∀ (st : SelectionState) (typeId : String),
      GoodState st.service_items →
        GoodState (handleToggleService st typeId).service_items) :=
  ⟨fun _ stId itemId change h => goodState_updateItemQuantity h stId itemId change,
   fun _ typeId h => goodState_handleToggleService h typeId⟩

theorem selection_invariant_preserved_witness :
    GoodState [("regular", [("tshirt", 2)])] ∧
    GoodState (updateItemQuantity [("regular", [("tshirt", 2)])]
      "regular" "tshirt" 1) :=
  ⟨by decide,
   selection_invariant_preserved.1 _ "regular" "tshirt" 1 (by decide)⟩

/-- C10: the invoice page derives its figures from the stored amount
alone: subtotal = amount / 1.08, tax = subtotal × 0.08, total = amount,
and over exact arithmetic subtotal × 1.08 = amount and
subtotal + tax = amount. -/
theorem invoice_figures_from_amount (amount : ℚ) :
    invoiceSubtotal amount = amount / 1.08 ∧
    invoiceTax amount = invoiceSubtotal amount * 0.08 ∧
    invoiceTotal amount = amount ∧
    invoiceSubtotal amount * 1.08 = amount ∧
    invoiceSubtotal amount + invoiceTax amount = amount := by
  refine ⟨rfl, rfl, rfl, ?_, ?_⟩
  · rw [invoiceSubtotal]
    exact div_mul_cancel₀ amount (by norm_num)
  · rw [invoiceTax, invoiceSubtotal]
    field_simp
    ring



theorem errorMessage_selection (b : JsonBody) :
    (if jsTruthyField b.detail then b.detail.getD ""
     else if jsTruthyField b.message then b.message.getD ""
     else "An error occurred") = specErrorMessage b := by
  rcases b with ⟨detail, message, payload⟩
  cases detail with
  | none =>
    cases message with
    | none => rfl
    | some m => by_cases hm : m = "" <;> simp [jsTruthyField, specErrorMessage, hm]
  | some d =>
    by_cases hd : d = ""
    · cases message with
      | none => simp [jsTruthyField, specErrorMessage, hd]
      | some m => by_cases hm : m = "" <;> simp [jsTruthyField, specErrorMessage, hd, hm]
    · simp [jsTruthyField, specErrorMessage, hd]

/-- C8 (amended): a 2xx response yields the parsed body, and a non-2xx
response throws an error whose single message string is the detail field
when present and non-empty, else the message field when present and
non-empty, else the generic fallback. -/
theorem response_handler_message (r : HttpResponse) :
    (r.ok = true → ∀ b, r.json = some b → handleResponse r = .ok b) ∧
    (r.ok = false →
      handleResponse r = .thrown (specErrorMessage (r.json.getD jsEmptyBody))) := by
  constructor
  · intro hok b hb
    simp [handleResponse, hok, hb]
  · intro hok
    rw [handleResponse, if_neg (by simp [hok])]
    exact congrArg HandlerOutcome.thrown (errorMessage_selection _)

theorem response_handler_message_witness :
    handleResponse
      { ok := false,
        json := some { detail := some "pickup request not found",
                       message := none, payload := "" } } =
      .thrown (specErrorMessage
        (({ ok := false,
            json := some { detail := some "pickup request not found",
                           message := none, payload := "" } } :
          HttpResponse).json.getD jsEmptyBody)) :=
  (response_handler_message _).2 rfl

/-- C8 counterexample: on an error response whose body carries the detail
field with the empty string next to a non-empty message field, the handler
throws the message field, not the present detail field. -/
theorem response_handler_counterexample :
    emptyDetailResponse.ok = false ∧
    emptyDetailResponse.json.map JsonBody.detail = some (some "") ∧
    handleResponse emptyDetailResponse = .thrown "upstream failure" ∧
    ("upstream failure" : String) ≠ "" := by
  refine ⟨rfl, rfl, ?_, by decide⟩
  simp [handleResponse, emptyDetailResponse, jsTruthyField, jsEmptyBody]




theorem reachable_safety {s : MachineState} (hr : Reachable s) :
    ((s.currentStep = 5 ∨ s.currentStep = 6) → s.pickupRequestId ≠ "") ∧
    (s.currentStep = 6 → s.paymentDone = true) := by
  induction hr with
  | init =>
    constructor
    · intro h
      rcases h with h | h <;> simp [initialState] at h
    · intro h
      simp [initialState] at h
  | @next s1 e t hr hok hstep ih =>
    cases e with
    | continueStep =>
      rw [stepFn] at hstep
      split at hstep
      · rename_i hcond
        obtain rfl := (Option.some.inj hstep)
        constructor
        · intro h5
          exfalso
          rcases hcond with h | h <;> rcases h5 with h5 | h5 <;> simp at h5 <;> omega
        · intro h6
          exfalso
          rcases hcond with h | h <;> simp at h6 <;> omega
      · exact Option.noConfusion hstep
    | back =>
      rw [stepFn] at hstep
      split at hstep
      · rename_i hcond
        obtain rfl := (Option.some.inj hstep)
        constructor
        · intro h5
          exfalso
          rcases hcond with h | h <;> rcases h5 with h5 | h5 <;> simp at h5 <;> omega
        · intro h6
          exfalso
          rcases hcond with h | h <;> simp at h6 <;> omega
      · exact Option.noConfusion hstep
    | createPickupOk id =>
      rw [stepFn] at hstep
      split at hstep
      · obtain rfl := (Option.some.inj hstep)
        constructor
        · intro _
          simpa [serverOk] using hok
        · intro h6
          simp at h6
      · exact Option.noConfusion hstep
    | createPickupFail =>
      rw [stepFn] at hstep
      split at hstep
      · obtain rfl := (Option.some.inj hstep)
        exact ih
      · exact Option.noConfusion hstep
    | paymentOk =>
      rw [stepFn] at hstep
      split at hstep
      · rename_i hcond
        obtain rfl := (Option.some.inj hstep)
        constructor
        · intro _
          simpa using hcond.2
        · intro _
          rfl
      · exact Option.noConfusion hstep
    | paymentFail =>
      rw [stepFn] at hstep
      split at hstep
      · obtain rfl := (Option.some.inj hstep)
        exact ih
      · exact Option.noConfusion hstep

theorem stepFn_shape (s : MachineState) (e : BookingEvent) (t : MachineState)
    (hstep : stepFn s e = some t) :
    t = s ∨ t.currentStep = s.currentStep + 1 ∨
    t.currentStep + 1 = s.currentStep ∨
    (s.currentStep = 3 ∧ t.currentStep = 5) ∨
    (s.currentStep = 5 ∧ t.currentStep = 6) := by
  cases e with
  | continueStep =>
    rw [stepFn] at hstep
    split at hstep
    · obtain rfl := (Option.some.inj hstep)
      right; left
      rfl
    · exact Option.noConfusion hstep
  | back =>
    rw [stepFn] at hstep
    split at hstep
    · rename_i hcond
      obtain rfl := (Option.some.inj hstep)
      right; right; left
      show s.currentStep - 1 + 1 = s.currentStep
      rcases hcond with h | h <;> omega
    · exact Option.noConfusion hstep
  | createPickupOk id =>
    rw [stepFn] at hstep
    split at hstep
    · rename_i hcond
      obtain rfl := (Option.some.inj hstep)
      right; right; right; left
      exact ⟨hcond, rfl⟩
    · exact Option.noConfusion hstep
  | createPickupFail =>
    rw [stepFn] at hstep
    split at hstep
    · exact Or.inl (Option.some.inj hstep).symm
    · exact Option.noConfusion hstep
  | paymentOk =>
    rw [stepFn] at hstep
    split at hstep
    · rename_i hcond
      obtain rfl := (Option.some.inj hstep)
      right; right; right; right
      exact ⟨hcond.1, rfl⟩
    · exact Option.noConfusion hstep
  | paymentFail =>
    rw [stepFn] at hstep
    split at hstep
    · exact Or.inl (Option.some.inj hstep).symm
    · exact Option.noConfusion hstep

/-- C7: in every reachable state of the booking step machine, the payment
step and the confirmation step carry a non-empty pickup request id, the
confirmation step is only reached after a successful payment creation, and
every transition is a one-step forward or backward move, a stay, or one of
the two success jumps (service selection to payment, payment to
confirmation). -/
theorem booking_machine_safety :
    (∀ s, Reachable s →
      ((s.currentStep = 5 ∨ s.currentStep = 6) → s.pickupRequestId ≠ "") ∧
      (s.currentStep = 6 → s.paymentDone = true)) ∧
    (∀ (s : MachineState) (e : BookingEvent) (t : MachineState),
      stepFn s e = some t →
        t = s ∨ t.currentStep = s.currentStep + 1 ∨
        t.currentStep + 1 = s.currentStep ∨
        (s.currentStep = 3 ∧ t.currentStep = 5) ∨
        (s.currentStep = 5 ∧ t.currentStep = 6)) :=
  ⟨fun _ hr => reachable_safety hr, stepFn_shape⟩

theorem booking_machine_safety_witness :
    ({ currentStep := 5, pickupRequestId := "pr_1", paymentDone := false } :
      MachineState).pickupRequestId ≠ "" :=
  (booking_machine_safety.1 _
    (@Reachable.next ⟨3, "", false⟩ (BookingEvent.createPickupOk "pr_1")
      ⟨5, "pr_1", false⟩
      (@Reachable.next ⟨2, "", false⟩ BookingEvent.continueStep ⟨3, "", false⟩
        (@Reachable.next initialState BookingEvent.continueStep ⟨2, "", false⟩
          Reachable.init trivial (by decide))
        trivial (by decide))
      (by show ("pr_1" : String) ≠ ""; decide) (by decide))).1 (Or.inl rfl)

end LaundryService
